import Mathlib

/-!
Verification of the authentication/token lifecycle of the bestpractices-bc
repository: a pair of near-duplicate servers (Express, layered/functional;
NestJS, modular/OOP) exposing register, login and refresh-token operations.

The shallow embedding below translates, from the source:
  - the token issuer (src/express/app/utils/jwt.js,
    src/nestjs/src/common/utils/jwt.util.ts) over an idealised-signature
    model of the jsonwebtoken library;
  - the NestJS password utility (PasswordUtil, src/nestjs/src/common/utils);
  - the auth orchestrators (src/express/app/services/auth.service.js,
    src/nestjs/src/core/auth/auth.service.ts);
  - the zod request schemas and the routing/controller layers.
The User Store collaborator (a remote supabase table) and the argon2
library are external to the repository and are modelled from the spec's
collaborator contracts. All state is threaded explicitly: each store
operation takes and returns the store, so frame properties are visible.
-/

set_option autoImplicit false
set_option maxRecDepth 8192

namespace BP

/-- A JavaScript exception escaping an async function (a rejected promise),
identified by its message. -/
structure JsError where
  msg : String
deriving DecidableEq, Repr

/-- A row of the users table: `{ id, login, password }` with `password`
holding the argon2 hash. -/
structure UserRec where
  id : Nat
  login : String
  password : String
deriving DecidableEq, Repr

/-- A user object as returned across the orchestrator boundary. The
`password?` field is `some hash` when the JS object still carries its
`password` property and `none` after the
`const \x7b password: _, ...userWithoutPassword \x7d = user` destructuring. -/
structure UserData where
  id : Nat
  login : String
  password? : Option String
deriving DecidableEq, Repr

/-- The user row exactly as the store returned it (password present). -/
def UserRec.toData (u : UserRec) : UserData :=
  ⟨u.id, u.login, some u.password⟩

/-- The user row after the password property has been destructured away. -/
def UserRec.toDataStripped (u : UserRec) : UserData :=
  ⟨u.id, u.login, none⟩

/-! ### JSON response bodies -/

/-- A small JSON model, enough for the response bodies the routers build. -/
inductive Json where
  | null
  | str (s : String)
  | num (n : Nat)
  | bool (b : Bool)
  | obj (fields : List (String × Json))

/-- Whether a JSON object carries a top-level field of the given name. -/
def Json.hasField : Json → String → Bool
  | .obj fs, k => fs.any (fun f => f.1 == k)
  | _, _ => false

/-- Serialisation of a user object: the `password` property is present in
the JSON exactly when the JS object still carries it. -/
def UserData.toJson (d : UserData) : Json :=
  .obj ([("id", .num d.id), ("login", .str d.login)] ++
    (match d.password? with
     | some h => [("password", .str h)]
     | none => []))

/-! ### Token issuer (jsonwebtoken model)

Tokens are modelled as signed records: the `secret` field stands for the
signature, which verifies exactly when the verifying secret equals the
signing secret (idealised cryptography). A wire-level token is either a
structurally valid token or a garbage string (corrupted/tampered input). -/

/-- The payload both implementations sign: `\x7b userId \x7d`. -/
structure TokenPayload where
  userId : Nat
deriving DecidableEq, Repr

/-- A signed JWT: payload claims plus issuance and expiry times (seconds)
and the signing secret standing for the signature. -/
structure Token where
  userId : Nat
  iat : Nat
  exp : Nat
  secret : String
deriving DecidableEq, Repr

/-- A token string on the wire: a well-formed signed token, or a
syntactically corrupted string. -/
inductive Wire where
  | tok (t : Token)
  | garbage (s : String)
deriving DecidableEq, Repr

/-- The two error classes `jsonwebtoken.verify` throws: `TokenExpiredError`
for a valid signature past its `exp`, `JsonWebTokenError` for malformed
input or a bad signature. -/
inductive JwtError where
  | tokenExpiredError
  | jsonWebTokenError
deriving DecidableEq, Repr

/-- Models `jwt.sign(payload, secret, \x7b expiresIn \x7d)`: the expiry is
computed at issuance time as `iat + expiresIn`. -/
def jwtSign (userId : Nat) (secret : String) (expiresInSec : Nat) (now : Nat) : Token :=
  ⟨userId, now, now + expiresInSec, secret⟩

/-- Models `jwt.verify(token, secret)` at clock `now`: malformed input or a
signature made with a different secret throws `JsonWebTokenError`; a valid
signature whose expiry has passed throws `TokenExpiredError`; otherwise the
decoded payload is returned. -/
def jwtVerify (w : Wire) (secret : String) (now : Nat) : Except JwtError TokenPayload :=
  match w with
  | .garbage _ => .error .jsonWebTokenError
  | .tok t =>
    if t.secret ≠ secret then .error .jsonWebTokenError
    else if t.exp ≤ now then .error .tokenExpiredError
    else .ok ⟨t.userId⟩

/-- Accumulates leading decimal digits, stopping at the first non-digit,
like `parseInt` does after its first character. -/
def parseDigits (acc : Nat) : List Char → Nat
  | [] => acc
  | c :: cs => if c.isDigit then parseDigits (acc * 10 + (c.toNat - 48)) cs else acc

/-- Models `parseInt(s, 10)`: the leading digit prefix as a number; a
string not starting with a digit gives NaN, modelled by the fallback 0. -/
def parseIntModel : List Char → Nat
  | [] => 0
  | c :: cs => if c.isDigit then parseDigits 0 (c :: cs) else 0

/-- Models `timeToMs` from the express app config: the last character
selects the unit, `parseInt` reads the prefix before it. -/
def timeToMs (s : String) : Nat :=
  let value := parseIntModel s.data.dropLast
  match s.data.getLast? with
  | some 's' => value * 1000
  | some 'm' => value * 60 * 1000
  | some 'h' => value * 60 * 60 * 1000
  | some 'd' => value * 24 * 60 * 60 * 1000
  | _ => parseIntModel s.data

/-- Lifetime in seconds denoted by an `expiresIn` string such as "5m". -/
def expiresInSec (s : String) : Nat :=
  timeToMs s / 1000

/-- The process-wide configuration both implementations read: the secret
key and the two token lifetimes. -/
structure AppConfig where
  secretKey : String
  accessTokenExpiresIn : String
  refreshTokenExpiresIn : String
deriving DecidableEq, Repr

/-- Models the environment loading of both variants
(`process.env.ACCESS_TOKEN_EXPIRES_IN ?? "5m"` in the express env config,
`get("ACCESS_TOKEN_EXPIRES_IN") || "5m"` in the NestJS JwtUtil): absent
variables fall back to "5m" for the access token and "1h" for the refresh
token. -/
def AppConfig.ofEnv (secret : String) (accessVar refreshVar : Option String) : AppConfig :=
  ⟨secret, accessVar.getD "5m", refreshVar.getD "1h"⟩

/-- Models `generateTokens(userId)` (express `utils/jwt.js`) and
`JwtUtil.generateTokens` (NestJS): both tokens are signed with the same
process-wide secret over the payload `\x7b userId \x7d`, with the access
and refresh lifetimes applied independently. -/
def generateTokens (cfg : AppConfig) (userId : Nat) (now : Nat) : Token × Token :=
  let accessToken := jwtSign userId cfg.secretKey (expiresInSec cfg.accessTokenExpiresIn) now
  let refreshToken := jwtSign userId cfg.secretKey (expiresInSec cfg.refreshTokenExpiresIn) now
  (accessToken, refreshToken)

/-! ### User Store collaborator -/

/-- Modelled from the spec: the external User Store collaborator (the
remote supabase users table), "a network-backed key-value lookup" exposing
`findById`, `findByLogin`, `create`, each returning `\x7b data, error \x7d`,
with login uniqueness "enforced by the external store (expected to reject
duplicate logins)". The state is the list of stored rows plus the next
fresh id; every operation takes and returns the state so that mutations
are observable. -/
structure Store where
  users : List UserRec
  nextId : Nat
deriving DecidableEq, Repr

/-- Modelled from the spec: `findByLogin(login)`, a read returning the
matching row or a not-found outcome (the `\x7b data, error \x7d` pair of
the source collapses to an `Option`: the orchestrators test
`findError || !user`). -/
def Store.findByLogin (st : Store) (l : String) : Option UserRec × Store :=
  (st.users.find? (fun u => u.login == l), st)

/-- Modelled from the spec: `findById(id)`, a read returning the matching
row or a not-found outcome. -/
def Store.findById (st : Store) (i : Nat) : Option UserRec × Store :=
  (st.users.find? (fun u => u.id == i), st)

/-- Modelled from the spec: `create(fields)`, the single-row insert; a
duplicate login is rejected with a store-reported error, otherwise the
created row (with its fresh id) is returned and appended. -/
def Store.create (st : Store) (l hashedPw : String) : Except String UserRec × Store :=
  if st.users.any (fun u => u.login == l) then
    (.error "duplicate key value violates unique constraint", st)
  else
    let u : UserRec := ⟨st.nextId, l, hashedPw⟩
    (.ok u, ⟨st.users ++ [u], st.nextId + 1⟩)

/-! ### Password hashing collaborator -/

/-- Modelled from the spec: the argon2id hash of a plaintext with the
configured parameters; the output "encodes algorithm parameters and salt",
abstracted as a recoverable tagged encoding. -/
def argon2Hash (p : String) : String :=
  "$argon2id$" ++ p

/-- Modelled from the spec: `verify(hashString, plaintext) -> bool`, which
"returns false (never throws to caller) on malformed hash, algorithm
mismatch, or non-match". -/
def argon2VerifyModel (hash p : String) : Bool :=
  hash == argon2Hash p

/-- The well-behaved hasher: `argon2.hash` resolving normally. The
orchestrators are parametrised over a fallible hasher because the spec
allows `hash` to fail ("Fails with HashingError on parameter
misconfiguration or resource exhaustion"). -/
def hashOk : String → Except JsError String :=
  fun p => .ok (argon2Hash p)

/-! ### Orchestrator results -/

/-- The `\x7b success, data?, accessToken?, refreshToken?, error? \x7d`
value every orchestrator operation resolves with. The error is identified
by its message (the source wraps it in `new Error(msg)`). -/
structure AuthResult where
  success : Bool
  data? : Option UserData := none
  accessToken? : Option Token := none
  refreshToken? : Option Token := none
  error? : Option String := none
deriving DecidableEq, Repr

/-- The `\x7b success: false, error: new Error(msg) \x7d` failure value. -/
def AuthResult.fail (msg : String) : AuthResult :=
  { success := false, error? := some msg }

/-- A well-shaped orchestrator result value: either a success carrying
user data and both tokens and no error, or a failure carrying an error
message and neither data nor tokens. -/
def AuthResult.isShaped (r : AuthResult) : Bool :=
  (r.success && r.data?.isSome && r.accessToken?.isSome && r.refreshToken?.isSome
    && r.error?.isNone)
  || (!r.success && r.error?.isSome && r.data?.isNone && r.accessToken?.isNone
    && r.refreshToken?.isNone)

/-! ### Express auth orchestrator (src/express/app/services/auth.service.js) -/

namespace authService

/-- Translation of `authService.register(login, password)`: hash the
password (`await argon2.hash` — a rejection escapes, there is no
try/catch), create the user, on store error return the failure value,
otherwise generate tokens and return the created row as `data` unchanged
(no password stripping happens on this path in the source). -/
def register (hashPw : String → Except JsError String) (cfg : AppConfig) (now : Nat)
    (st : Store) (login password : String) : Except JsError (AuthResult × Store) :=
  match hashPw password with
  | .error e => .error e
  | .ok hashedPassword =>
    match Store.create st login hashedPassword with
    | (.error e, st1) =>
      .ok (AuthResult.fail ("Failed to register user: " ++ e), st1)
    | (.ok data, st1) =>
      let (accessToken, refreshToken) := generateTokens cfg data.id now
      .ok ({ success := true, data? := some data.toData,
             accessToken? := some accessToken, refreshToken? := some refreshToken }, st1)

/-- Translation of `authService.login(login, password)`: look up by login
(not-found or store error → the invalid-credentials failure), verify the
password with `argon2.verify` (mismatch → the identical failure value),
then strip the password, generate tokens and succeed. `argonVerify` is the
spec-modelled boolean verifier. -/
def login (argonVerify : String → String → Bool) (cfg : AppConfig) (now : Nat)
    (st : Store) (l password : String) : AuthResult × Store :=
  match Store.findByLogin st l with
  | (none, st1) => (AuthResult.fail "Invalid login or password", st1)
  | (some user, st1) =>
    if !(argonVerify user.password password) then
      (AuthResult.fail "Invalid login or password", st1)
    else
      let (accessToken, refreshToken) := generateTokens cfg user.id now
      ({ success := true, data? := some user.toDataStripped,
         accessToken? := some accessToken, refreshToken? := some refreshToken }, st1)

/-- The try-block of `authService.refreshToken(token)`: verify the token
(`jwt.verify` throws on invalid or expired input), reject a payload whose
`userId` is falsy, look up the user (not-found → the user-not-found
failure), then strip the password and issue a fresh pair. -/
def refreshTokenBody (cfg : AppConfig) (now : Nat) (st : Store) (w : Wire) :
    Except JwtError (AuthResult × Store) :=
  match jwtVerify w cfg.secretKey now with
  | .error e => .error e
  | .ok decoded =>
    if decoded.userId == 0 then
      .ok (AuthResult.fail "Invalid refresh token", st)
    else
      match Store.findById st decoded.userId with
      | (none, st1) => .ok (AuthResult.fail "User not found", st1)
      | (some user, st1) =>
        let (accessToken, newRefreshToken) := generateTokens cfg user.id now
        .ok ({ success := true, data? := some user.toDataStripped,
               accessToken? := some accessToken, refreshToken? := some newRefreshToken }, st1)

/-- Translation of `authService.refreshToken(token)`: the try-block with
its catch clauses, which map `TokenExpiredError` to the refresh-expired
failure and `JsonWebTokenError` to the invalid-refresh-token failure. -/
def refreshToken (cfg : AppConfig) (now : Nat) (st : Store) (w : Wire) :
    AuthResult × Store :=
  match refreshTokenBody cfg now st w with
  | .ok r => r
  | .error .tokenExpiredError => (AuthResult.fail "Refresh token has expired", st)
  | .error .jsonWebTokenError => (AuthResult.fail "Invalid refresh token", st)

end authService

/-! ### NestJS password utility (src/nestjs/src/common/utils, PasswordUtil) -/

namespace PasswordUtil

/-- Translation of `PasswordUtil.verifyPassword(hash, password)`: the call
to `argon2.verify` is wrapped in try/catch, any rejection of the
underlying library (here an arbitrary fallible oracle) becomes `false`. -/
def verifyPassword (argonVerify : String → String → Except JsError Bool)
    (hash password : String) : Except JsError Bool :=
  match argonVerify hash password with
  | .ok b => .ok b
  | .error _ => .ok false

end PasswordUtil

/-! ### NestJS token utility (src/nestjs/src/common/utils/jwt.util.ts) -/

namespace JwtUtil

/-- Translation of `JwtUtil.verifyToken(token)`: `jwt.verify` wrapped in
try/catch returning null on ANY error — the expired/invalid distinction of
the underlying library is discarded here. -/
def verifyToken (w : Wire) (secret : String) (now : Nat) : Option TokenPayload :=
  (jwtVerify w secret now).toOption

end JwtUtil

/-! ### NestJS auth orchestrator (src/nestjs/src/core/auth/auth.service.ts) -/

namespace AuthService

/-- Translation of `AuthService.register(login, password)`: hash via
`PasswordUtil.hashPassword` (a rejection escapes, there is no try/catch),
create the user, on store error return the failure value, otherwise
generate tokens and return the created row as `data` unchanged (no
password stripping happens on this path in the source). -/
def register (hashPassword : String → Except JsError String) (cfg : AppConfig) (now : Nat)
    (st : Store) (login password : String) : Except JsError (AuthResult × Store) :=
  match hashPassword password with
  | .error e => .error e
  | .ok hashedPassword =>
    match Store.create st login hashedPassword with
    | (.error e, st1) =>
      .ok (AuthResult.fail ("Failed to register user: " ++ e), st1)
    | (.ok data, st1) =>
      let (accessToken, refreshToken) := generateTokens cfg data.id now
      .ok ({ success := true, data? := some data.toData,
             accessToken? := some accessToken, refreshToken? := some refreshToken }, st1)

/-- Translation of `AuthService.login(login, password)`: look up by login
(not-found → the invalid-credentials failure), verify via
`PasswordUtil.verifyPassword` (awaited, so a rejection would escape —
`verifyPassword` in fact never rejects), mismatch → the identical failure
value, then strip the password, generate tokens and succeed. -/
def login (argonVerify : String → String → Except JsError Bool) (cfg : AppConfig)
    (now : Nat) (st : Store) (l password : String) :
    Except JsError (AuthResult × Store) :=
  match Store.findByLogin st l with
  | (none, st1) => .ok (AuthResult.fail "Invalid login or password", st1)
  | (some user, st1) =>
    match PasswordUtil.verifyPassword argonVerify user.password password with
    | .error e => .error e
    | .ok isPasswordValid =>
      if !isPasswordValid then
        .ok (AuthResult.fail "Invalid login or password", st1)
      else
        let (accessToken, refreshToken) := generateTokens cfg user.id now
        .ok ({ success := true, data? := some user.toDataStripped,
               accessToken? := some accessToken, refreshToken? := some refreshToken }, st1)

/-- Translation of `AuthService.refreshToken(token)`: `JwtUtil.verifyToken`
returns null on any verification error (it never throws), so the
`!decoded` test maps every invalid OR expired token to the
invalid-refresh-token failure, and the catch clauses of the source
(`TokenExpiredError`, `JsonWebTokenError`) are unreachable; a falsy
`userId` is rejected, an unknown user yields the user-not-found failure,
otherwise the password is stripped and a fresh pair issued. -/
def refreshToken (cfg : AppConfig) (now : Nat) (st : Store) (w : Wire) :
    AuthResult × Store :=
  match JwtUtil.verifyToken w cfg.secretKey now with
  | none => (AuthResult.fail "Invalid refresh token", st)
  | some decoded =>
    if decoded.userId == 0 then
      (AuthResult.fail "Invalid refresh token", st)
    else
      match Store.findById st decoded.userId with
      | (none, st1) => (AuthResult.fail "User not found", st1)
      | (some user, st1) =>
        let (accessToken, newRefreshToken) := generateTokens cfg user.id now
        ({ success := true, data? := some user.toDataStripped,
           accessToken? := some accessToken, refreshToken? := some newRefreshToken }, st1)

end AuthService

/-! ### Request validation schemas (zod, unnamed schema module) -/

/-- Characters the login schema admits: `[a-zA-Z0-9_-]`. -/
def loginAllowedChar (c : Char) : Bool :=
  c.isAlphanum || c == '_' || c == '-'

/-- Translation of `loginSchema`: `.min(3)`, `.max(16)` and the regex
`(?=(?:.*[a-zA-Z])\x7b3,\x7d)[a-zA-Z0-9_-]+` — at least 3 letters, every
character alphanumeric, underscore or hyphen. -/
def loginSchemaAccepts (s : String) : Bool :=
  3 ≤ s.length && s.length ≤ 16 &&
    3 ≤ (s.data.countP (fun c => c.isAlpha)) && s.data.all loginAllowedChar

/-- The special characters the password schema requires one of. -/
def passwordSpecialChar (c : Char) : Bool :=
  c == '@' || c == '$' || c == '!' || c == '%' || c == '*' || c == '?' || c == '&'

/-- Translation of `passwordSchema`: `.min(8)` together with the four
lookahead regexes requiring a lowercase letter, an uppercase letter, a
digit and one of `@$!%*?&`. -/
def passwordSchemaAccepts (s : String) : Bool :=
  8 ≤ s.length && s.data.any (fun c => c.isLower) && s.data.any (fun c => c.isUpper)
    && s.data.any (fun c => c.isDigit) && s.data.any passwordSpecialChar

/-- Translation of `registerSchema = z.object(\x7b login: loginSchema,
password: passwordSchema \x7d)` (identical to `loginRequestSchema`). -/
def registerSchemaAccepts (l p : String) : Bool :=
  loginSchemaAccepts l && passwordSchemaAccepts p

/-! ### HTTP layer -/

/-- The cookie options the express config builds (`httpOnly: true`,
`maxAge` in milliseconds from the configured lifetime; the secure and
sameSite flags are constants and omitted). -/
structure CookieOpts where
  httpOnly : Bool
  maxAgeMs : Nat
deriving DecidableEq, Repr

/-- One `res.cookie(name, value, opts)` call; the value is the token the
orchestrator returned (absent when the source would pass undefined). -/
structure SetCookie where
  name : String
  value : Option Token
  opts : CookieOpts
deriving DecidableEq, Repr

/-- The observable response of a route handler: status code, body, and the
cookies set on the response. -/
structure Response where
  status : Nat
  body : Json
  cookies : List SetCookie

/-- The `accessTokenCookieOptions` of the express app config. -/
def accessCookieOpts (cfg : AppConfig) : CookieOpts :=
  ⟨true, timeToMs cfg.accessTokenExpiresIn⟩

/-- The refresh-token `cookieOptions` of the express app config. -/
def refreshCookieOpts (cfg : AppConfig) : CookieOpts :=
  ⟨true, timeToMs cfg.refreshTokenExpiresIn⟩

/-! ### Express router (src/express/app/routers/auth.router.js)

The register route of this router applies no validation middleware: the
request body goes straight to `authService.register`. On failure it sends
the bare error message with status 400; on success it sets both token
cookies and sends the bare `data` value with status 201. -/

namespace authRouter

/-- Translation of the POST /register handler of auth.router.js. -/
def registerHandler (hashPw : String → Except JsError String) (cfg : AppConfig)
    (now : Nat) (st : Store) (login password : String) :
    Except JsError (Response × Store) :=
  match authService.register hashPw cfg now st login password with
  | .error e => .error e
  | .ok (res, st1) =>
    if !res.success then
      .ok ({ status := 400, body := .str ((res.error?).getD ""), cookies := [] }, st1)
    else
      .ok ({ status := 201,
             body := ((res.data?).map UserData.toJson).getD .null,
             cookies := [⟨"accessToken", res.accessToken?, accessCookieOpts cfg⟩,
                         ⟨"refreshToken", res.refreshToken?, refreshCookieOpts cfg⟩] }, st1)

end authRouter

/-! ### Express router variant with validation (unnamed router module)

This variant wires `validate(registerSchema)` in front of the handler: a
body failing the schema is answered 400 with the validation-failed
envelope and the orchestrator is never invoked; otherwise the handler
responds with the `\x7b success, data \x7d` / `\x7b success, error \x7d`
JSON envelopes. -/

namespace validatedAuthRouter

/-- The `res.status(400).json(\x7b success: false, error: "Validation
failed", ... \x7d)` body of the validation middleware (the per-field
details list is abbreviated away). -/
def validationFailedBody : Json :=
  .obj [("success", .bool false), ("error", .str "Validation failed")]

/-- Translation of the POST /register route of the unnamed router module:
the `validate(registerSchema)` middleware followed by the handler. -/
def registerHandler (hashPw : String → Except JsError String) (cfg : AppConfig)
    (now : Nat) (st : Store) (login password : String) :
    Except JsError (Response × Store) :=
  if !registerSchemaAccepts login password then
    .ok ({ status := 400, body := validationFailedBody, cookies := [] }, st)
  else
    match authService.register hashPw cfg now st login password with
    | .error e => .error e
    | .ok (res, st1) =>
      if !res.success then
        .ok ({ status := 400,
               body := .obj [("success", .bool false),
                             ("error", .str ((res.error?).getD ""))],
               cookies := [] }, st1)
      else
        .ok ({ status := 201,
               body := .obj [("success", .bool true),
                             ("data", ((res.data?).map UserData.toJson).getD .null)],
               cookies := [⟨"accessToken", res.accessToken?, accessCookieOpts cfg⟩,
                           ⟨"refreshToken", res.refreshToken?, refreshCookieOpts cfg⟩] }, st1)

end validatedAuthRouter

/-! ### NestJS controller (src/nestjs/src/core/auth/auth.controller.ts) -/

namespace AuthController

/-- Translation of `AuthController.register`: no validation pipe is
applied to the body; on orchestrator failure an HttpException with status
400 carries the error message, on success both cookies are set (maxAge
hardcoded to 5 and 60 minutes) and the `\x7b success: true, data \x7d`
envelope is returned with status 201. -/
def register (hashPassword : String → Except JsError String) (cfg : AppConfig)
    (now : Nat) (st : Store) (login password : String) :
    Except JsError (Response × Store) :=
  match AuthService.register hashPassword cfg now st login password with
  | .error e => .error e
  | .ok (result, st1) =>
  if !result.success || (result.error?).isSome then
    .ok ({ status := 400,
           body := .str ((result.error?).getD "Registration failed"),
           cookies := [] }, st1)
  else
    .ok ({ status := 201,
           body := .obj [("success", .bool true),
                         ("data", ((result.data?).map UserData.toJson).getD .null)],
           cookies := [⟨"accessToken", result.accessToken?, ⟨true, 5 * 60 * 1000⟩⟩,
                       ⟨"refreshToken", result.refreshToken?, ⟨true, 60 * 60 * 1000⟩⟩] }, st1)

end AuthController

/-! ### Concrete fixtures used by the closed theorems -/

/-- An empty store whose next fresh id is 1. -/
def st0 : Store := ⟨[], 1⟩

/-- The default configuration: some secret, access lifetime "5m", refresh
lifetime "1h" (the env defaults of both variants). -/
def cfg0 : AppConfig := AppConfig.ofEnv "test-secret" none none

/-- The store after the scenario registration of the spec: one user
"Abc123xy" with the hashed password. -/
def st1 : Store := ⟨[⟨1, "Abc123xy", argon2Hash "Str0ng!Pw"⟩], 2⟩

/-! ## Shared lemmas -/

/-- Every explicit failure value is well shaped. -/
theorem isShaped_fail (msg : String) : (AuthResult.fail msg).isShaped = true := rfl

/-- Every fully populated success value is well shaped. -/
theorem isShaped_success (d : UserData) (a r : Token) :
    (AuthResult.mk true (some d) (some a) (some r) none).isShaped = true := rfl

/-- The try-block of the express refresh flow leaves the store unchanged
whenever it resolves. -/
theorem refreshTokenBody_preserves_store (cfg : AppConfig) (now : Nat) (st : Store)
    (w : Wire) (r : AuthResult × Store)
    (h : authService.refreshTokenBody cfg now st w = .ok r) : r.2 = st := by
  unfold authService.refreshTokenBody at h
  cases hv : jwtVerify w cfg.secretKey now with
  | error e => rw [hv] at h; exact Except.noConfusion h
  | ok decoded =>
    rw [hv] at h
    dsimp only at h
    by_cases h3 : (decoded.userId == 0) = true
    · rw [if_pos h3] at h
      cases h; rfl
    · rw [if_neg h3] at h
      unfold Store.findById at h
      cases hf : List.find? (fun u => u.id == decoded.userId) st.users with
      | none => rw [hf] at h; cases h; rfl
      | some u => rw [hf] at h; cases h; rfl

/-! ## Claims -/

/-- Claim C6 (confirmed): token-pair issuance signs both tokens with the
same process-wide secret over a payload carrying the given userId, with
independent expiries computed at issuance time as now + lifetime; the
env-default lifetimes are "5m" (300 s) for the access token and "1h"
(3600 s) for the refresh token. -/
theorem generateTokens_same_secret_independent_expiry
    (cfg : AppConfig) (userId now : Nat) :
    (generateTokens cfg userId now).1.secret = cfg.secretKey ∧
    (generateTokens cfg userId now).2.secret = cfg.secretKey ∧
    (generateTokens cfg userId now).1.userId = userId ∧
    (generateTokens cfg userId now).2.userId = userId ∧
    (generateTokens cfg userId now).1.iat = now ∧
    (generateTokens cfg userId now).2.iat = now ∧
    (generateTokens cfg userId now).1.exp = now + expiresInSec cfg.accessTokenExpiresIn ∧
    (generateTokens cfg userId now).2.exp = now + expiresInSec cfg.refreshTokenExpiresIn ∧
    (AppConfig.ofEnv cfg.secretKey none none).accessTokenExpiresIn = "5m" ∧
    (AppConfig.ofEnv cfg.secretKey none none).refreshTokenExpiresIn = "1h" ∧
    expiresInSec "5m" = 5 * 60 ∧
    expiresInSec "1h" = 60 * 60 :=
  ⟨rfl, rfl, rfl, rfl, rfl, rfl, rfl, rfl, rfl, rfl, by decide, by decide⟩

/-- Claim C7 (confirmed): password verification returns a boolean and
never throws to its caller, whatever the underlying argon2 oracle does; a
throw of the oracle (malformed hash, algorithm mismatch) and a plain
non-match both yield false, and the erroring-oracle result is identical to
the mismatching-oracle result, so the caller cannot distinguish them. -/
theorem verifyPassword_never_throws_uniform_false
    (oracle : String → String → Except JsError Bool) (h p : String) :
    (∃ b, PasswordUtil.verifyPassword oracle h p = .ok b) ∧
    (∀ e, oracle h p = .error e → PasswordUtil.verifyPassword oracle h p = .ok false) ∧
    (oracle h p = .ok false → PasswordUtil.verifyPassword oracle h p = .ok false) ∧
    (∀ e, oracle h p = .error e →
      PasswordUtil.verifyPassword oracle h p =
        PasswordUtil.verifyPassword (fun _ _ => .ok false) h p) := by
  unfold PasswordUtil.verifyPassword
  refine ⟨?_, ?_, ?_, ?_⟩
  · cases hb : oracle h p with
    | ok b => exact ⟨b, rfl⟩
    | error e => exact ⟨false, rfl⟩
  · intro e he; rw [he]
  · intro he; rw [he]
  · intro e he; rw [he]

/-- Witness for C7 at a concrete throwing oracle: a malformed hash makes
the underlying library throw, and verifyPassword returns false. -/
theorem verifyPassword_never_throws_uniform_false_witness :
    PasswordUtil.verifyPassword
      (fun _ _ => .error ⟨"pchstr must contain a $ as first char"⟩)
      "not-a-hash" "S3cret!x" = .ok false :=
  (verifyPassword_never_throws_uniform_false
    (fun _ _ => .error ⟨"pchstr must contain a $ as first char"⟩)
    "not-a-hash" "S3cret!x").2.1 ⟨"pchstr must contain a $ as first char"⟩ rfl

/-- Claim C10 (confirmed): login and refreshToken never mutate the User
Store — in all four operation variants and on every path the store after
the call equals the store before, since only the reads findByLogin and
findById are invoked. -/
theorem login_refresh_never_mutate_store
    (v : String → String → Bool) (oracle : String → String → Except JsError Bool)
    (cfg : AppConfig) (now : Nat) (st : Store) (l p : String) (w : Wire) :
    (authService.login v cfg now st l p).2 = st ∧
    (authService.refreshToken cfg now st w).2 = st ∧
    (∃ r, AuthService.login oracle cfg now st l p = .ok (r, st)) ∧
    (AuthService.refreshToken cfg now st w).2 = st := by
  refine ⟨?_, ?_, ?_, ?_⟩
  · unfold authService.login Store.findByLogin
    cases st.users.find? (fun u => u.login == l) with
    | none => rfl
    | some u => dsimp only; split <;> rfl
  · unfold authService.refreshToken
    cases hbody : authService.refreshTokenBody cfg now st w with
    | ok r => exact refreshTokenBody_preserves_store cfg now st w r hbody
    | error e => cases e <;> rfl
  · unfold AuthService.login Store.findByLogin PasswordUtil.verifyPassword
    cases st.users.find? (fun u => u.login == l) with
    | none => exact ⟨_, rfl⟩
    | some u =>
      dsimp only
      cases oracle u.password p with
      | ok b =>
        dsimp only
        split
        · exact ⟨_, rfl⟩
        · exact ⟨_, rfl⟩
      | error e => exact ⟨_, rfl⟩
  · unfold AuthService.refreshToken
    cases hv : JwtUtil.verifyToken w cfg.secretKey now with
    | none => rfl
    | some decoded =>
      dsimp only
      split
      · rfl
      · unfold Store.findById
        cases st.users.find? (fun u => u.id == decoded.userId) with
        | none => rfl
        | some u => rfl

/-- Claim C4 (confirmed): a login whose login string matches no stored
user and a login that finds a user but whose password does not verify
produce exactly the same failure value — success false and the message
"Invalid login or password" — in both the express and the NestJS
orchestrator, so the two causes are indistinguishable to the caller. -/
theorem login_failure_indistinguishable
    (v : String → String → Bool) (oracle : String → String → Except JsError Bool)
    (cfg : AppConfig) (now : Nat) (stA stB : Store) (lA pA lB pB : String) (u : UserRec)
    (hA : (Store.findByLogin stA lA).1 = none)
    (hB : (Store.findByLogin stB lB).1 = some u)
    (hv : v u.password pB = false)
    (ho : oracle u.password pB = .ok false) :
    (authService.login v cfg now stA lA pA).1 = AuthResult.fail "Invalid login or password" ∧
    (authService.login v cfg now stB lB pB).1 = AuthResult.fail "Invalid login or password" ∧
    (authService.login v cfg now stA lA pA).1 = (authService.login v cfg now stB lB pB).1 ∧
    AuthService.login oracle cfg now stA lA pA =
      .ok (AuthResult.fail "Invalid login or password", stA) ∧
    AuthService.login oracle cfg now stB lB pB =
      .ok (AuthResult.fail "Invalid login or password", stB) := by
  unfold Store.findByLogin at hA hB
  dsimp only at hA hB
  have e1 : (authService.login v cfg now stA lA pA).1
      = AuthResult.fail "Invalid login or password" := by
    unfold authService.login Store.findByLogin
    rw [hA]
  have e2 : (authService.login v cfg now stB lB pB).1
      = AuthResult.fail "Invalid login or password" := by
    unfold authService.login Store.findByLogin
    rw [hB]
    dsimp only
    rw [hv]
    rfl
  refine ⟨e1, e2, e1.trans e2.symm, ?_, ?_⟩
  · unfold AuthService.login Store.findByLogin
    rw [hA]
  · unfold AuthService.login Store.findByLogin
    rw [hB]
    dsimp only
    unfold PasswordUtil.verifyPassword
    rw [ho]
    rfl

/-- Witness for C4: an unregistered login "nouser01" and a wrong password
for the registered "Abc123xy" fail with the same value. -/
theorem login_failure_indistinguishable_witness :
    (authService.login argon2VerifyModel cfg0 0 st0 "nouser01" "Whatever1!").1 =
      AuthResult.fail "Invalid login or password" ∧
    (authService.login argon2VerifyModel cfg0 0 st1 "Abc123xy" "Wr0ng!Pwd").1 =
      AuthResult.fail "Invalid login or password" :=
  have h := login_failure_indistinguishable argon2VerifyModel
    (fun h p => .ok (argon2VerifyModel h p)) cfg0 0 st0 st1
    "nouser01" "Whatever1!" "Abc123xy" "Wr0ng!Pwd"
    ⟨1, "Abc123xy", argon2Hash "Str0ng!Pw"⟩ rfl (by decide) (by decide) (by rfl)
  ⟨h.1, h.2.1⟩

/-- Claim C1 (code_bug): at the spec's scenario registration both register
variants return the created row with its hashed password still present in
the data field — the stripping destructuring exists in login and
refreshToken (whose returned user carries no password) but is missing in
register, contradicting the stated invariant and the NestJS controller's
own "(without password)" documentation. -/
theorem register_data_keeps_password_login_refresh_strip :
    authService.register hashOk cfg0 0 st0 "Abc123xy" "Str0ng!Pw" =
      .ok ({ success := true,
             data? := some ⟨1, "Abc123xy", some (argon2Hash "Str0ng!Pw")⟩,
             accessToken? := some (jwtSign 1 "test-secret" 300 0),
             refreshToken? := some (jwtSign 1 "test-secret" 3600 0) }, st1) ∧
    AuthService.register hashOk cfg0 0 st0 "Abc123xy" "Str0ng!Pw" =
      .ok ({ success := true,
             data? := some ⟨1, "Abc123xy", some (argon2Hash "Str0ng!Pw")⟩,
             accessToken? := some (jwtSign 1 "test-secret" 300 0),
             refreshToken? := some (jwtSign 1 "test-secret" 3600 0) }, st1) ∧
    (UserData.mk 1 "Abc123xy" (some (argon2Hash "Str0ng!Pw"))).password?.isSome = true ∧
    (authService.login argon2VerifyModel cfg0 0 st1 "Abc123xy" "Str0ng!Pw").1.data? =
      some ⟨1, "Abc123xy", none⟩ ∧
    (authService.refreshToken cfg0 100 st1 (.tok (jwtSign 1 "test-secret" 3600 0))).1.data? =
      some ⟨1, "Abc123xy", none⟩ ∧
    (AuthService.refreshToken cfg0 100 st1 (.tok (jwtSign 1 "test-secret" 3600 0))).1.data? =
      some ⟨1, "Abc123xy", none⟩ :=
  ⟨rfl, rfl, rfl, rfl, rfl, rfl⟩

/-- Claim C2 (code_bug): the express refreshToken distinguishes the three
failure kinds (expired / invalid / user-not-found), but the NestJS variant
reports a correctly signed, expired refresh token with the same "Invalid
refresh token" failure as a corrupted one, because JwtUtil.verifyToken
swallows TokenExpiredError and returns null, leaving the service's
expired branch unreachable. -/
theorem refresh_failures_express_distinct_nest_merges_expired :
    authService.refreshToken cfg0 4000 st1 (.tok (jwtSign 7 "test-secret" 3600 0)) =
      (AuthResult.fail "Refresh token has expired", st1) ∧
    AuthService.refreshToken cfg0 4000 st1 (.tok (jwtSign 7 "test-secret" 3600 0)) =
      (AuthResult.fail "Invalid refresh token", st1) ∧
    authService.refreshToken cfg0 100 st1 (.garbage "corrupted-token") =
      (AuthResult.fail "Invalid refresh token", st1) ∧
    authService.refreshToken cfg0 100 st1 (.tok (jwtSign 9 "test-secret" 3600 0)) =
      (AuthResult.fail "User not found", st1) ∧
    AuthService.refreshToken cfg0 100 st1 (.garbage "corrupted-token") =
      (AuthResult.fail "Invalid refresh token", st1) ∧
    AuthService.refreshToken cfg0 100 st1 (.tok (jwtSign 9 "test-secret" 3600 0)) =
      (AuthResult.fail "User not found", st1) ∧
    ("Refresh token has expired" ≠ "Invalid refresh token") ∧
    ("Invalid refresh token" ≠ "User not found") ∧
    ("Refresh token has expired" ≠ "User not found") :=
  ⟨rfl, rfl, rfl, rfl, rfl, rfl, by decide, by decide, by decide⟩

/-- Counterexample to claim C3: a rejection of the password hasher is not
caught by either register variant — the operation resolves to the raw
exception instead of a `\x7b success: false \x7d` value. -/
theorem register_hasher_throw_escapes :
    authService.register (fun _ => .error ⟨"argon2 rejected"⟩) cfg0 0 st0
      "Abc123xy" "Str0ng!Pw" = .error ⟨"argon2 rejected"⟩ ∧
    AuthService.register (fun _ => .error ⟨"argon2 rejected"⟩) cfg0 0 st0
      "Abc123xy" "Str0ng!Pw" = .error ⟨"argon2 rejected"⟩ :=
  ⟨rfl, rfl⟩

/-- The try-block of the express refresh flow resolves only with
well-shaped result values. -/
theorem refreshTokenBody_shaped (cfg : AppConfig) (now : Nat) (st : Store)
    (w : Wire) (r : AuthResult × Store)
    (h : authService.refreshTokenBody cfg now st w = .ok r) : r.1.isShaped = true := by
  unfold authService.refreshTokenBody at h
  cases hv : jwtVerify w cfg.secretKey now with
  | error e => rw [hv] at h; exact Except.noConfusion h
  | ok decoded =>
    rw [hv] at h
    dsimp only at h
    by_cases h3 : (decoded.userId == 0) = true
    · rw [if_pos h3] at h
      cases h; rfl
    · rw [if_neg h3] at h
      unfold Store.findById at h
      cases hf : List.find? (fun u => u.id == decoded.userId) st.users with
      | none => rw [hf] at h; cases h; rfl
      | some u => rw [hf] at h; cases h; rfl

/-- Claim C3 (corrected): both refreshToken variants always return a
well-shaped `\x7b success, ... \x7d` value; login returns one whenever the
verifier returns a boolean (the NestJS login for ANY oracle behaviour),
and register returns one whenever the hasher resolves — but a hasher
throw escapes register uncaught (see the counterexample), so the catching
happens only in the refresh flow, not at the whole orchestrator
boundary. -/
theorem orchestrator_returns_result_values
    (v : String → String → Bool) (oracle : String → String → Except JsError Bool)
    (hashPw : String → Except JsError String) (cfg : AppConfig) (now : Nat)
    (st : Store) (l p h : String) (w : Wire)
    (hok : hashPw p = .ok h) :
    (authService.refreshToken cfg now st w).1.isShaped = true ∧
    (AuthService.refreshToken cfg now st w).1.isShaped = true ∧
    (authService.login v cfg now st l p).1.isShaped = true ∧
    (∃ r st2, AuthService.login oracle cfg now st l p = .ok (r, st2) ∧
      r.isShaped = true) ∧
    (∃ r st2, authService.register hashPw cfg now st l p = .ok (r, st2) ∧
      r.isShaped = true) ∧
    (∃ r st2, AuthService.register hashPw cfg now st l p = .ok (r, st2) ∧
      r.isShaped = true) := by
  refine ⟨?_, ?_, ?_, ?_, ?_, ?_⟩
  · unfold authService.refreshToken
    cases hbody : authService.refreshTokenBody cfg now st w with
    | ok r => exact refreshTokenBody_shaped cfg now st w r hbody
    | error e => cases e <;> rfl
  · unfold AuthService.refreshToken
    cases hv : JwtUtil.verifyToken w cfg.secretKey now with
    | none => rfl
    | some decoded =>
      dsimp only
      split
      · rfl
      · unfold Store.findById
        cases st.users.find? (fun u => u.id == decoded.userId) with
        | none => rfl
        | some u => rfl
  · unfold authService.login Store.findByLogin
    cases st.users.find? (fun u => u.login == l) with
    | none => rfl
    | some u => dsimp only; split <;> rfl
  · unfold AuthService.login Store.findByLogin PasswordUtil.verifyPassword
    cases st.users.find? (fun u => u.login == l) with
    | none => exact ⟨_, _, rfl, rfl⟩
    | some u =>
      dsimp only
      cases oracle u.password p with
      | ok b =>
        dsimp only
        split
        · exact ⟨_, _, rfl, rfl⟩
        · exact ⟨_, _, rfl, rfl⟩
      | error e => exact ⟨_, _, rfl, rfl⟩
  · unfold authService.register
    rw [hok]
    unfold Store.create
    dsimp only
    by_cases hd : (st.users.any (fun u => u.login == l)) = true
    · rw [if_pos hd]
      exact ⟨_, _, rfl, rfl⟩
    · rw [if_neg hd]
      exact ⟨_, _, rfl, rfl⟩
  · unfold AuthService.register
    rw [hok]
    unfold Store.create
    dsimp only
    by_cases hd : (st.users.any (fun u => u.login == l)) = true
    · rw [if_pos hd]
      exact ⟨_, _, rfl, rfl⟩
    · rw [if_neg hd]
      exact ⟨_, _, rfl, rfl⟩

/-- Witness for the amended C3 at concrete inputs: a garbage refresh token
yields a shaped failure value, and register with a resolving hasher
yields a shaped value. -/
theorem orchestrator_returns_result_values_witness :
    (authService.refreshToken cfg0 100 st1 (.garbage "zzz")).1.isShaped = true ∧
    (∃ r st2, authService.register hashOk cfg0 0 st0 "Abc123xy" "Str0ng!Pw" =
      .ok (r, st2) ∧ r.isShaped = true) :=
  have h := orchestrator_returns_result_values argon2VerifyModel
    (fun a b => .ok (argon2VerifyModel a b)) hashOk cfg0 0 st1
    "Abc123xy" "Str0ng!Pw" (argon2Hash "Str0ng!Pw") (.garbage "zzz") rfl
  have h2 := orchestrator_returns_result_values argon2VerifyModel
    (fun a b => .ok (argon2VerifyModel a b)) hashOk cfg0 0 st0
    "Abc123xy" "Str0ng!Pw" (argon2Hash "Str0ng!Pw") (.garbage "zzz") rfl
  ⟨h.1, h2.2.2.2.2.1⟩

/-- A duplicate login makes the express register return the
registration-failed value with the store unchanged. -/
theorem authService_register_dup
    (hashPw : String → Except JsError String) (cfg : AppConfig) (now : Nat)
    (st : Store) (l p h : String) (hok : hashPw p = .ok h)
    (hd : (st.users.any (fun u => u.login == l)) = true) :
    authService.register hashPw cfg now st l p =
      .ok (AuthResult.fail
        "Failed to register user: duplicate key value violates unique constraint", st) := by
  unfold authService.register
  rw [hok]
  unfold Store.create
  dsimp only
  rw [if_pos hd]
  rfl

/-- A duplicate login makes the NestJS register return the
registration-failed value with the store unchanged. -/
theorem AuthService_register_dup
    (hashPw : String → Except JsError String) (cfg : AppConfig) (now : Nat)
    (st : Store) (l p h : String) (hok : hashPw p = .ok h)
    (hd : (st.users.any (fun u => u.login == l)) = true) :
    AuthService.register hashPw cfg now st l p =
      .ok (AuthResult.fail
        "Failed to register user: duplicate key value violates unique constraint", st) := by
  unfold AuthService.register
  rw [hok]
  unfold Store.create
  dsimp only
  rw [if_pos hd]
  rfl

/-- A fresh login makes the express register succeed, appending exactly
the one created record. -/
theorem authService_register_fresh
    (hashPw : String → Except JsError String) (cfg : AppConfig) (now : Nat)
    (st : Store) (l p h : String) (hok : hashPw p = .ok h)
    (hd : (st.users.any (fun u => u.login == l)) = false) :
    authService.register hashPw cfg now st l p =
      .ok ({ success := true, data? := some ⟨st.nextId, l, some h⟩,
             accessToken? := some (generateTokens cfg st.nextId now).1,
             refreshToken? := some (generateTokens cfg st.nextId now).2 },
           ⟨st.users ++ [⟨st.nextId, l, h⟩], st.nextId + 1⟩) := by
  unfold authService.register
  rw [hok]
  unfold Store.create
  dsimp only
  rw [if_neg (by simp [hd])]
  rfl

/-- A fresh login makes the NestJS register succeed, appending exactly
the one created record. -/
theorem AuthService_register_fresh
    (hashPw : String → Except JsError String) (cfg : AppConfig) (now : Nat)
    (st : Store) (l p h : String) (hok : hashPw p = .ok h)
    (hd : (st.users.any (fun u => u.login == l)) = false) :
    AuthService.register hashPw cfg now st l p =
      .ok ({ success := true, data? := some ⟨st.nextId, l, some h⟩,
             accessToken? := some (generateTokens cfg st.nextId now).1,
             refreshToken? := some (generateTokens cfg st.nextId now).2 },
           ⟨st.users ++ [⟨st.nextId, l, h⟩], st.nextId + 1⟩) := by
  unfold AuthService.register
  rw [hok]
  unfold Store.create
  dsimp only
  rw [if_neg (by simp [hd])]
  rfl

/-- Claim C5 (confirmed): when the store reports a create error both
register variants return the registration-failed value, which carries no
access or refresh token, and the store is unchanged; on success the store
gains exactly the one created record — the create call is the sole
mutation. -/
theorem register_failure_no_tokens_success_single_record
    (hashPw : String → Except JsError String) (cfg : AppConfig) (now : Nat)
    (st : Store) (l p h : String) (hok : hashPw p = .ok h) :
    ((st.users.any (fun u => u.login == l)) = true →
      authService.register hashPw cfg now st l p =
        .ok (AuthResult.fail
          "Failed to register user: duplicate key value violates unique constraint", st) ∧
      AuthService.register hashPw cfg now st l p =
        .ok (AuthResult.fail
          "Failed to register user: duplicate key value violates unique constraint", st)) ∧
    ((st.users.any (fun u => u.login == l)) = false →
      authService.register hashPw cfg now st l p =
        .ok ({ success := true, data? := some ⟨st.nextId, l, some h⟩,
               accessToken? := some (generateTokens cfg st.nextId now).1,
               refreshToken? := some (generateTokens cfg st.nextId now).2 },
             ⟨st.users ++ [⟨st.nextId, l, h⟩], st.nextId + 1⟩) ∧
      AuthService.register hashPw cfg now st l p =
        .ok ({ success := true, data? := some ⟨st.nextId, l, some h⟩,
               accessToken? := some (generateTokens cfg st.nextId now).1,
               refreshToken? := some (generateTokens cfg st.nextId now).2 },
             ⟨st.users ++ [⟨st.nextId, l, h⟩], st.nextId + 1⟩)) := by
  constructor
  · intro hd
    exact ⟨authService_register_dup hashPw cfg now st l p h hok hd,
           AuthService_register_dup hashPw cfg now st l p h hok hd⟩
  · intro hd
    exact ⟨authService_register_fresh hashPw cfg now st l p h hok hd,
           AuthService_register_fresh hashPw cfg now st l p h hok hd⟩

/-- Witness for C5: a duplicate registration of "Abc123xy" fails with the
store untouched and no tokens, and a fresh registration appends exactly
one record. -/
theorem register_failure_no_tokens_success_single_record_witness :
    (authService.register hashOk cfg0 0 st1 "Abc123xy" "Str0ng!Pw" =
      .ok (AuthResult.fail
        "Failed to register user: duplicate key value violates unique constraint", st1)) ∧
    (authService.register hashOk cfg0 0 st0 "Abc123xy" "Str0ng!Pw" =
      .ok ({ success := true,
             data? := some ⟨1, "Abc123xy", some (argon2Hash "Str0ng!Pw")⟩,
             accessToken? := some (generateTokens cfg0 1 0).1,
             refreshToken? := some (generateTokens cfg0 1 0).2 },
           ⟨st0.users ++ [⟨1, "Abc123xy", argon2Hash "Str0ng!Pw"⟩], 2⟩)) :=
  have hdup := register_failure_no_tokens_success_single_record hashOk cfg0 0 st1
    "Abc123xy" "Str0ng!Pw" (argon2Hash "Str0ng!Pw") rfl
  have hfresh := register_failure_no_tokens_success_single_record hashOk cfg0 0 st0
    "Abc123xy" "Str0ng!Pw" (argon2Hash "Str0ng!Pw") rfl
  ⟨(hdup.1 (by decide)).1, (hfresh.2 (by decide)).1⟩

/-- Claim C8 (code_bug): the zod schemas reject the short login "ab", and
the router variant that applies validate(registerSchema) answers 400
without running the orchestrator (store unchanged); but the named express
auth router and the NestJS controller apply no validation: the same
invalid request reaches the orchestrator, creates the user and is
answered 201. -/
theorem unvalidated_routes_run_orchestrator_on_invalid_input :
    loginSchemaAccepts "ab" = false ∧
    validatedAuthRouter.registerHandler hashOk cfg0 0 st0 "ab" "Str0ng!Pw" =
      .ok (⟨400, validatedAuthRouter.validationFailedBody, []⟩, st0) ∧
    authRouter.registerHandler hashOk cfg0 0 st0 "ab" "Str0ng!Pw" =
      .ok (⟨201, UserData.toJson ⟨1, "ab", some (argon2Hash "Str0ng!Pw")⟩,
            [⟨"accessToken", some (jwtSign 1 "test-secret" 300 0), ⟨true, 300000⟩⟩,
             ⟨"refreshToken", some (jwtSign 1 "test-secret" 3600 0), ⟨true, 3600000⟩⟩]⟩,
           ⟨[⟨1, "ab", argon2Hash "Str0ng!Pw"⟩], 2⟩) ∧
    AuthController.register hashOk cfg0 0 st0 "ab" "Str0ng!Pw" =
      .ok (⟨201, .obj [("success", .bool true),
                       ("data", UserData.toJson ⟨1, "ab", some (argon2Hash "Str0ng!Pw")⟩)],
            [⟨"accessToken", some (jwtSign 1 "test-secret" 300 0), ⟨true, 300000⟩⟩,
             ⟨"refreshToken", some (jwtSign 1 "test-secret" 3600 0), ⟨true, 3600000⟩⟩]⟩,
           ⟨[⟨1, "ab", argon2Hash "Str0ng!Pw"⟩], 2⟩) :=
  ⟨by decide, rfl, rfl, rfl⟩

/-- Counterexample to claim C9: at the spec's scenario registration the
named express register route answers 201, but its body is the bare
created record — it has no success field and does carry the (hashed)
password field, against the claimed
`\x7b success: true, data: userWithoutPassword \x7d` shape. -/
theorem register_success_body_bare_with_password :
    authRouter.registerHandler hashOk cfg0 0 st0 "Abc123xy" "Str0ng!Pw" =
      .ok (⟨201, UserData.toJson ⟨1, "Abc123xy", some (argon2Hash "Str0ng!Pw")⟩,
            [⟨"accessToken", some (jwtSign 1 "test-secret" 300 0), ⟨true, 300000⟩⟩,
             ⟨"refreshToken", some (jwtSign 1 "test-secret" 3600 0), ⟨true, 3600000⟩⟩]⟩,
           st1) ∧
    Json.hasField (UserData.toJson ⟨1, "Abc123xy", some (argon2Hash "Str0ng!Pw")⟩)
      "success" = false ∧
    Json.hasField (UserData.toJson ⟨1, "Abc123xy", some (argon2Hash "Str0ng!Pw")⟩)
      "password" = true :=
  ⟨rfl, by decide, by decide⟩

/-- Claim C9 (corrected): every successful POST /auth/register yields 201
and sets the accessToken and refreshToken cookies, and every store-failed
one yields 400 — but the success body is the created record still
carrying its hashed password, sent bare by the named express router
(which also sends the bare error message on failure), and wrapped in the
`\x7b success, data \x7d` / `\x7b success, error \x7d` envelopes only by
the validated router variant and (for success) the NestJS controller. -/
theorem register_endpoint_status_cookies_body
    (hashPw : String → Except JsError String) (cfg : AppConfig) (now : Nat)
    (st : Store) (l p h : String) (hok : hashPw p = .ok h) :
    ((st.users.any (fun u => u.login == l)) = false →
      authRouter.registerHandler hashPw cfg now st l p =
        .ok (⟨201, UserData.toJson ⟨st.nextId, l, some h⟩,
              [⟨"accessToken", some (generateTokens cfg st.nextId now).1,
                accessCookieOpts cfg⟩,
               ⟨"refreshToken", some (generateTokens cfg st.nextId now).2,
                refreshCookieOpts cfg⟩]⟩,
             ⟨st.users ++ [⟨st.nextId, l, h⟩], st.nextId + 1⟩) ∧
      AuthController.register hashPw cfg now st l p =
        .ok (⟨201, .obj [("success", .bool true),
                         ("data", UserData.toJson ⟨st.nextId, l, some h⟩)],
              [⟨"accessToken", some (generateTokens cfg st.nextId now).1,
                ⟨true, 5 * 60 * 1000⟩⟩,
               ⟨"refreshToken", some (generateTokens cfg st.nextId now).2,
                ⟨true, 60 * 60 * 1000⟩⟩]⟩,
             ⟨st.users ++ [⟨st.nextId, l, h⟩], st.nextId + 1⟩) ∧
      (registerSchemaAccepts l p = true →
        validatedAuthRouter.registerHandler hashPw cfg now st l p =
          .ok (⟨201, .obj [("success", .bool true),
                           ("data", UserData.toJson ⟨st.nextId, l, some h⟩)],
                [⟨"accessToken", some (generateTokens cfg st.nextId now).1,
                  accessCookieOpts cfg⟩,
                 ⟨"refreshToken", some (generateTokens cfg st.nextId now).2,
                  refreshCookieOpts cfg⟩]⟩,
               ⟨st.users ++ [⟨st.nextId, l, h⟩], st.nextId + 1⟩))) ∧
    ((st.users.any (fun u => u.login == l)) = true →
      authRouter.registerHandler hashPw cfg now st l p =
        .ok (⟨400,
              .str "Failed to register user: duplicate key value violates unique constraint",
              []⟩, st) ∧
      AuthController.register hashPw cfg now st l p =
        .ok (⟨400,
              .str "Failed to register user: duplicate key value violates unique constraint",
              []⟩, st) ∧
      (registerSchemaAccepts l p = true →
        validatedAuthRouter.registerHandler hashPw cfg now st l p =
          .ok (⟨400,
                .obj [("success", .bool false),
                      ("error",
                       .str "Failed to register user: duplicate key value violates unique constraint")],
                []⟩, st))) := by
  constructor
  · intro hd
    refine ⟨?_, ?_, ?_⟩
    · unfold authRouter.registerHandler
      rw [authService_register_fresh hashPw cfg now st l p h hok hd]
      rfl
    · unfold AuthController.register
      rw [AuthService_register_fresh hashPw cfg now st l p h hok hd]
      rfl
    · intro hacc
      unfold validatedAuthRouter.registerHandler
      rw [if_neg (by simp [hacc])]
      rw [authService_register_fresh hashPw cfg now st l p h hok hd]
      rfl
  · intro hd
    refine ⟨?_, ?_, ?_⟩
    · unfold authRouter.registerHandler
      rw [authService_register_dup hashPw cfg now st l p h hok hd]
      rfl
    · unfold AuthController.register
      rw [AuthService_register_dup hashPw cfg now st l p h hok hd]
      rfl
    · intro hacc
      unfold validatedAuthRouter.registerHandler
      rw [if_neg (by simp [hacc])]
      rw [authService_register_dup hashPw cfg now st l p h hok hd]
      rfl

/-- Witness for the amended C9: the scenario registration through the
named express router gives 201, cookies and the bare record; a duplicate
registration gives 400. -/
theorem register_endpoint_status_cookies_body_witness :
    authRouter.registerHandler hashOk cfg0 0 st0 "Abc123xy" "Str0ng!Pw" =
      .ok (⟨201, UserData.toJson ⟨1, "Abc123xy", some (argon2Hash "Str0ng!Pw")⟩,
            [⟨"accessToken", some (generateTokens cfg0 1 0).1, accessCookieOpts cfg0⟩,
             ⟨"refreshToken", some (generateTokens cfg0 1 0).2, refreshCookieOpts cfg0⟩]⟩,
           ⟨st0.users ++ [⟨1, "Abc123xy", argon2Hash "Str0ng!Pw"⟩], 2⟩) ∧
    authRouter.registerHandler hashOk cfg0 0 st1 "Abc123xy" "Str0ng!Pw" =
      .ok (⟨400,
            .str "Failed to register user: duplicate key value violates unique constraint",
            []⟩, st1) :=
  have hfresh := register_endpoint_status_cookies_body hashOk cfg0 0 st0
    "Abc123xy" "Str0ng!Pw" (argon2Hash "Str0ng!Pw") rfl
  have hdup := register_endpoint_status_cookies_body hashOk cfg0 0 st1
    "Abc123xy" "Str0ng!Pw" (argon2Hash "Str0ng!Pw") rfl
  ⟨(hfresh.1 (by decide)).1, (hdup.2 (by decide)).1⟩

end BP
